import Mathlib

/-!
Verification of `cuda::experimental::uninitialized_buffer`
(src/cudax/include/cuda/experimental/__container/uninitialized_buffer.h).

The buffer stores a memory-resource reference `__mr_`, an element count
`__count_` (a `size_t`) and a raw pointer `__buf_` (a `void*`, null when no
allocation is held).  We embed:

* `size_t` values as `Nat` reduced modulo `2 ^ 64` where C++ would wrap;
* pointers as `Nat`, with `0` playing the role of `nullptr`;
* a memory resource as an identifier `Nat` together with an allocation
  behaviour `Nat → Option Nat` (bytes requested ↦ returned pointer, `none`
  when `allocate` throws);
* each observable call to the resource as an `Event`, so theorems can count
  the `allocate` / `deallocate` calls an operation issues.

Move assignment is embedded over an explicit store `Nat → Buffer` updated
field-assignment by field-assignment, so that the aliased call
`b = std::move(b)` is modelled exactly as the C++ executes it.
-/

namespace UninitializedBuffer

/-- `size_t` arithmetic is modulo `2 ^ 64`. -/
def U : Nat := 2 ^ 64

/-- Embeds `__get_allocation_size` (uninitialized_buffer.h lines 71–75):
`(__count * sizeof(_Tp) + (__alignment - 1)) & ~(__alignment - 1)` in
`size_t` arithmetic, with `sz = sizeof(_Tp)` and `align = alignof(_Tp)`.
The bitwise complement of the 64-bit value `align - 1` is
`(U - 1) ^^^ (align - 1)`. -/
def __get_allocation_size (sz align count : Nat) : Nat :=
  ((count * sz) % U + (align - 1)) % U &&& ((U - 1) ^^^ (align - 1))

/-- Masking a 64-bit value with the complement of `2 ^ k - 1` clears its
low `k` bits: it rounds down to a multiple of `2 ^ k`. -/
theorem land_not_mask (y k : Nat) (hy : y < 2 ^ 64) (hk : k ≤ 64) :
    y &&& ((2 ^ 64 - 1) ^^^ (2 ^ k - 1)) = 2 ^ k * (y / 2 ^ k) := by
  have hshift : 2 ^ k * (y / 2 ^ k) = (y >>> k) <<< k := by
    rw [Nat.shiftRight_eq_div_pow, Nat.shiftLeft_eq, Nat.mul_comm]
  apply Nat.eq_of_testBit_eq
  intro i
  rw [hshift, Nat.testBit_and, Nat.testBit_xor, Nat.testBit_two_pow_sub_one,
    Nat.testBit_two_pow_sub_one, Nat.testBit_shiftLeft, Nat.testBit_shiftRight]
  rcases lt_or_le i k with hik | hik
  · have h64 : i < 64 := lt_of_lt_of_le hik hk
    simp [hik, h64, Nat.not_le.mpr hik]
  · rcases lt_or_le i 64 with h64 | h64
    · have : k + (i - k) = i := by omega
      simp [hik, h64, Nat.not_lt.mpr hik, this]
    · have hbit : y.testBit i = false := by
        apply Nat.testBit_lt_two_pow
        exact lt_of_lt_of_le hy (Nat.pow_le_pow_right (by norm_num) h64)
      have hbit' : y.testBit (k + (i - k)) = false := by
        have : k + (i - k) = i := by omega
        rw [this, hbit]
      simp [hbit, hbit', Nat.not_lt.mpr h64]

/-- When `align = 2 ^ k` divides `bytes` and `bytes` fits in 64 bits, the
mask round-up is the identity: `__get_allocation_size` returns
`count * sz` exactly. -/
theorem get_allocation_size_eq (sz align count k : Nat)
    (ha : align = 2 ^ k) (hk : k ≤ 64) (hdvd : align ∣ sz)
    (hov : count * sz < U) :
    __get_allocation_size sz align count = count * sz := by
  subst ha
  have hpos : 0 < 2 ^ k := Nat.pos_pow_of_pos k (by norm_num)
  have hdvd' : 2 ^ k ∣ count * sz := Dvd.dvd.mul_left hdvd count
  obtain ⟨m, hm⟩ := hdvd'
  have hUdvd : (2 : Nat) ^ k ∣ U := pow_dvd_pow 2 hk
  -- a multiple of `2 ^ k` below `2 ^ 64` leaves room for the `align - 1` slack
  have hstep : count * sz + 2 ^ k ≤ U := by
    obtain ⟨q, hq⟩ := hUdvd
    rw [hm, hq] at hov ⊢
    have hmq : m < q := by
      by_contra hcon
      exact absurd (Nat.mul_le_mul_left (2 ^ k) (Nat.not_lt.mp hcon)) (Nat.not_le.mpr hov)
    calc 2 ^ k * m + 2 ^ k = 2 ^ k * (m + 1) := by ring
      _ ≤ 2 ^ k * q := Nat.mul_le_mul_left _ hmq
  have hle : count * sz + (2 ^ k - 1) < U := by omega
  unfold __get_allocation_size
  rw [Nat.mod_eq_of_lt hov, Nat.mod_eq_of_lt hle]
  rw [show U = 2 ^ 64 from rfl]
  have hdiv : (2 ^ k * m + (2 ^ k - 1)) / 2 ^ k = m := by
    rw [Nat.add_comm, Nat.add_mul_div_left _ _ hpos, Nat.div_eq_of_lt (by omega)]
    omega
  rw [land_not_mask _ k (by rw [show (2 : Nat) ^ 64 = U from rfl]; exact hle) hk, hm, hdiv]

/-- C1: for every count and element type `T` (alignment a power of two and
dividing `sizeof(T)`, as the C++ type system guarantees; `count * sizeof(T)`
not overflowing `size_t`), `__get_allocation_size` returns a multiple of the
alignment that is at least `count * sizeof(T)` and exceeds it by strictly
less than the alignment, computed by the mask round-up formula. -/
theorem allocation_size_spec (sz align count k : Nat)
    (ha : align = 2 ^ k) (hk : k ≤ 64) (hdvd : align ∣ sz)
    (hov : count * sz < U) :
    align ∣ __get_allocation_size sz align count ∧
      count * sz ≤ __get_allocation_size sz align count ∧
      __get_allocation_size sz align count - count * sz < align ∧
      __get_allocation_size sz align count =
        ((count * sz) % U + (align - 1)) % U &&& ((U - 1) ^^^ (align - 1)) := by
  have heq := get_allocation_size_eq sz align count k ha hk hdvd hov
  refine ⟨?_, ?_, ?_, rfl⟩
  · rw [heq]; exact Dvd.dvd.mul_left hdvd count
  · rw [heq]
  · rw [heq, Nat.sub_self, ha]
    exact Nat.pos_pow_of_pos k (by norm_num)

/-- Witness for C1 at `sizeof(T) = 4`, `alignof(T) = 4`, `count = 10`
(the spec's scenario: one allocation of 40 bytes). -/
theorem allocation_size_spec_witness :
    ((4 : Nat) = 2 ^ 2 ∧ (4 : Nat) ∣ 4 ∧ 10 * 4 < U) ∧
      (4 ∣ __get_allocation_size 4 4 10 ∧
        10 * 4 ≤ __get_allocation_size 4 4 10 ∧
        __get_allocation_size 4 4 10 - 10 * 4 < 4 ∧
        __get_allocation_size 4 4 10 =
          ((10 * 4) % U + (4 - 1)) % U &&& ((U - 1) ^^^ (4 - 1))) :=
  ⟨⟨by norm_num, by norm_num, by norm_num [U]⟩,
    allocation_size_spec 4 4 10 2 (by norm_num) (by norm_num) (by norm_num)
      (by norm_num [U])⟩

/-! ## The buffer state and the resource-call events -/

/-- The three data members of `uninitialized_buffer` (lines 66–68).
`__mr_` is the identifier of the referenced memory resource, `__buf_` is the
raw pointer with `0` for `nullptr`. -/
structure uninitialized_buffer where
  __mr_ : Nat
  __count_ : Nat
  __buf_ : Nat
deriving DecidableEq, Repr

/-- An observable call to a memory resource: `allocate(bytes)` or
`deallocate(ptr, bytes)`, tagged with the resource it is issued to. -/
inductive Event where
  | alloc (mr : Nat) (bytes : Nat)
  | dealloc (mr : Nat) (ptr : Nat) (bytes : Nat)
deriving DecidableEq, Repr

/-- `size()` (lines 165–168): returns `__count_`. -/
def size (b : uninitialized_buffer) : Nat := b.__count_

/-- `resource()` (lines 174–177): returns `__mr_`. -/
def resource (b : uninitialized_buffer) : Nat := b.__mr_

/-! ## The aligned-pointer resolver -/

/-- Modelled from the spec: the aligned-pointer primitive `cuda::std::align`
from `<cuda/std/__memory/align.h>`, which is part of this repository but not
under `src/`.  Per the spec it must "search within the reserved byte range
`[raw, raw + size(count))` for the first address satisfying `alignOf(T)`,
verify that at least `count * sizeOf(T)` bytes remain from that address";
when no such address exists the C++ function yields `nullptr` (`none`
here).  The first address satisfying the alignment is the least multiple of
`align` that is at or above `ptr`. -/
def std_align (align sz ptr space : Nat) : Option Nat :=
  let aligned := ptr + (align - ptr % align) % align
  if aligned + sz ≤ ptr + space then some aligned else none

/-- Embeds `__get_data` (lines 78–85): applies the aligned-pointer primitive
with the type's alignment, `__size = __count_ * sizeof(_Tp)` and
`__space = __get_allocation_size(__count_)`, starting from `__buf_`. -/
def __get_data (sz align : Nat) (b : uninitialized_buffer) : Option Nat :=
  std_align align (b.__count_ * sz) b.__buf_
    (__get_allocation_size sz align b.__count_)

/-- `data()` (lines 159–162): calls `__get_data()` on the current state. -/
def data (sz align : Nat) (b : uninitialized_buffer) : Option Nat :=
  __get_data sz align b

/-- `begin()` (lines 147–150): calls `__get_data()` on the current state. -/
def begin (sz align : Nat) (b : uninitialized_buffer) : Option Nat :=
  __get_data sz align b

/-- The adjusted address of the alignment search is the least multiple of
`align` at or above `ptr`. -/
theorem align_up_least (align ptr : Nat) (hal : 0 < align) :
    align ∣ ptr + (align - ptr % align) % align ∧
      ptr ≤ ptr + (align - ptr % align) % align ∧
      (∀ a, align ∣ a → ptr ≤ a → ptr + (align - ptr % align) % align ≤ a) := by
  rcases Nat.eq_zero_or_pos (ptr % align) with hr | hr
  · have hz : (align - ptr % align) % align = 0 := by
      rw [hr, Nat.sub_zero, Nat.mod_self]
    refine ⟨?_, by omega, fun a _ ha => by omega⟩
    rw [hz, Nat.add_zero]
    exact Nat.dvd_of_mod_eq_zero hr
  · have hlt : ptr % align < align := Nat.mod_lt ptr hal
    have hz : (align - ptr % align) % align = align - ptr % align :=
      Nat.mod_eq_of_lt (by omega)
    have hdm := Nat.div_add_mod ptr align
    refine ⟨⟨ptr / align + 1, ?_⟩, by omega, ?_⟩
    · rw [Nat.mul_add, Nat.mul_one]
      omega
    · intro a hdvd ha
      obtain ⟨t, ht⟩ := hdvd
      have hQt : ptr / align + 1 ≤ t := by
        by_contra hcon
        have := Nat.mul_le_mul_left align (Nat.lt_succ_iff.mp (Nat.not_le.mp hcon))
        omega
      have h2 := Nat.mul_le_mul_left align hQt
      rw [Nat.mul_add, Nat.mul_one] at h2
      omega

/-- C2: for a buffer whose reserved byte range `[__buf_, __buf_ + size)`
contains an address satisfying the alignment with at least
`__count_ * sizeof(T)` bytes remaining, `data()` and `begin()` both return
the first such address, which is a multiple of the alignment. -/
theorem data_spec (sz align : Nat) (b : uninitialized_buffer)
    (hal : 0 < align)
    (hex : ∃ a, b.__buf_ ≤ a ∧ align ∣ a ∧
      a + b.__count_ * sz ≤ b.__buf_ + __get_allocation_size sz align b.__count_) :
    ∃ a0, data sz align b = some a0 ∧ begin sz align b = some a0 ∧
      align ∣ a0 ∧ b.__buf_ ≤ a0 ∧
      a0 + b.__count_ * sz ≤ b.__buf_ + __get_allocation_size sz align b.__count_ ∧
      ∀ a, b.__buf_ ≤ a → align ∣ a →
        a + b.__count_ * sz ≤ b.__buf_ + __get_allocation_size sz align b.__count_ →
        a0 ≤ a := by
  obtain ⟨a, hba, hdvd, hroom⟩ := hex
  obtain ⟨h1, h2, h3⟩ := align_up_least align b.__buf_ hal
  set a0 := b.__buf_ + (align - b.__buf_ % align) % align with ha0
  have hle : a0 ≤ a := h3 a hdvd hba
  have hroom0 : a0 + b.__count_ * sz ≤
      b.__buf_ + __get_allocation_size sz align b.__count_ := by omega
  refine ⟨a0, ?_, ?_, h1, h2, hroom0, fun a' hba' hdvd' hroom' => h3 a' hdvd' hba'⟩
  · unfold data __get_data std_align
    simp only [← ha0]
    rw [if_pos hroom0]
  · unfold begin __get_data std_align
    simp only [← ha0]
    rw [if_pos hroom0]

/-- Witness for C2: `count = 10`, 4-byte aligned 4-byte `T`, raw pointer
`1024` (256-byte aligned allocation of 40 bytes): `data()` returns an
address divisible by 4 — here `1024` itself. -/
theorem data_spec_witness :
    (0 < 4 ∧ ∃ a, ({ __mr_ := 0, __count_ := 10, __buf_ := 1024 } :
        uninitialized_buffer).__buf_ ≤ a ∧ 4 ∣ a ∧
        a + 10 * 4 ≤ 1024 + __get_allocation_size 4 4 10) ∧
      ∃ a0, data 4 4 { __mr_ := 0, __count_ := 10, __buf_ := 1024 } = some a0 ∧
        begin 4 4 { __mr_ := 0, __count_ := 10, __buf_ := 1024 } = some a0 ∧
        4 ∣ a0 ∧ 1024 ≤ a0 ∧
        a0 + 10 * 4 ≤ 1024 + __get_allocation_size 4 4 10 ∧
        ∀ a, 1024 ≤ a → 4 ∣ a → a + 10 * 4 ≤ 1024 + __get_allocation_size 4 4 10 →
          a0 ≤ a :=
  ⟨⟨by norm_num, 1024, by norm_num, by norm_num, by decide⟩,
    data_spec 4 4 { __mr_ := 0, __count_ := 10, __buf_ := 1024 } (by norm_num)
      ⟨1024, by norm_num, by norm_num, by decide⟩⟩

/-! ## Lifecycle: construction, moves, swap, destruction

Each operation returns the buffer states it produces together with the list
of resource calls it issues, in order.  `allocFn` is the behaviour of the
resource `mr`'s `allocate`: `none` means the call throws. -/

/-- Embeds the allocating constructor (lines 99–103): `__mr_` is the given
resource, `__count_` the given count, and `__buf_` is `nullptr` when
`__count_ == 0` and otherwise the result of
`__mr_.allocate(__get_allocation_size(__count_))`.  A thrown allocation
(`allocFn _ = none`) means no buffer object comes into existence, yet the
`allocate` call was still issued. -/
def construct (sz align mr : Nat) (allocFn : Nat → Option Nat) (count : Nat) :
    Option uninitialized_buffer × List Event :=
  if count = 0 then
    (some { __mr_ := mr, __count_ := count, __buf_ := 0 }, [])
  else
    match allocFn (__get_allocation_size sz align count) with
    | some p =>
      (some { __mr_ := mr, __count_ := count, __buf_ := p },
        [Event.alloc mr (__get_allocation_size sz align count)])
    | none => (none, [Event.alloc mr (__get_allocation_size sz align count)])

/-- Embeds the move constructor (lines 110–117): the new buffer copies the
other's three members, then the other's `__count_` and `__buf_` are reset to
`0` and `nullptr` (its `__mr_` is untouched).  Returns (new buffer,
moved-from buffer, events issued). -/
def moveConstruct (other : uninitialized_buffer) :
    uninitialized_buffer × uninitialized_buffer × List Event :=
  ({ __mr_ := other.__mr_, __count_ := other.__count_, __buf_ := other.__buf_ },
    { __mr_ := other.__mr_, __count_ := 0, __buf_ := 0 },
    [])

/-- Embeds the destructor (lines 138–144): if `__buf_` is non-null it calls
`__mr_.deallocate(__buf_, __get_allocation_size(__count_))`, else nothing. -/
def destruct (sz align : Nat) (b : uninitialized_buffer) : List Event :=
  if b.__buf_ ≠ 0 then
    [Event.dealloc b.__mr_ b.__buf_ (__get_allocation_size sz align b.__count_)]
  else
    []

/-- Embeds `swap` (lines 181–186): the three members are exchanged; no
resource call is issued.  Returns (new `*this`, new `__other`, events). -/
def swap (self other : uninitialized_buffer) :
    uninitialized_buffer × uninitialized_buffer × List Event :=
  ({ __mr_ := other.__mr_, __count_ := other.__count_, __buf_ := other.__buf_ },
    { __mr_ := self.__mr_, __count_ := self.__count_, __buf_ := self.__buf_ },
    [])

/-- A store of buffer objects addressed by identity, used to embed move
assignment so that the aliased call `b = std::move(b)` is the case
`self = other` of the same definition. -/
def updateStore (s : Nat → uninitialized_buffer) (i : Nat)
    (b : uninitialized_buffer) : Nat → uninitialized_buffer :=
  fun j => if j = i then b else s j

/-- Embeds move assignment (lines 121–133) statement by statement over the
object store: first `deallocate(__buf_, __get_allocation_size(__count_))`
when `*this` holds a buffer, then the five member assignments
`__mr_ = __other.__mr_; __count_ = __other.__count_; __buf_ = __other.__buf_;
__other.__count_ = 0; __other.__buf_ = nullptr;` each reading the store left
by the previous one, so aliasing of `self` and `other` behaves as in C++. -/
def moveAssign (sz align : Nat) (s : Nat → uninitialized_buffer)
    (self other : Nat) : (Nat → uninitialized_buffer) × List Event :=
  let ev :=
    if (s self).__buf_ ≠ 0 then
      [Event.dealloc (s self).__mr_ (s self).__buf_
        (__get_allocation_size sz align (s self).__count_)]
    else []
  let s1 := updateStore s self { s self with __mr_ := (s other).__mr_ }
  let s2 := updateStore s1 self { s1 self with __count_ := (s1 other).__count_ }
  let s3 := updateStore s2 self { s2 self with __buf_ := (s2 other).__buf_ }
  let s4 := updateStore s3 other { s3 other with __count_ := 0 }
  let s5 := updateStore s4 other { s4 other with __buf_ := 0 }
  (s5, ev)

/-- Whether an event is an `allocate` call. -/
def isAlloc : Event → Bool
  | .alloc _ _ => true
  | .dealloc _ _ _ => false

/-- Whether an event is a `deallocate` call. -/
def isDealloc : Event → Bool
  | .alloc _ _ => false
  | .dealloc _ _ _ => true

/-- The class invariant: `__count_ == 0 ⇔ __buf_ == nullptr`. -/
def inv (b : uninitialized_buffer) : Prop := b.__count_ = 0 ↔ b.__buf_ = 0

/-- Move assignment resets the moved-from object to `__count_ = 0`,
`__buf_ = nullptr` with its `__mr_` untouched — also when `self` and
`other` alias. -/
theorem moveAssign_result_other (sz align : Nat)
    (s : Nat → uninitialized_buffer) (self other : Nat) :
    (moveAssign sz align s self other).1 other =
      { __mr_ := (s other).__mr_, __count_ := 0, __buf_ := 0 } := by
  by_cases h : self = other
  · subst h
    simp [moveAssign, updateStore]
  · simp [moveAssign, updateStore, h, Ne.symm h]

/-- For distinct objects, move assignment makes `self` adopt `other`'s
member triple verbatim. -/
theorem moveAssign_result_self (sz align : Nat)
    (s : Nat → uninitialized_buffer) (self other : Nat) (h : self ≠ other) :
    (moveAssign sz align s self other).1 self =
      { __mr_ := (s other).__mr_, __count_ := (s other).__count_,
        __buf_ := (s other).__buf_ } := by
  simp [moveAssign, updateStore, h, Ne.symm h]

/-- Move assignment touches no object other than `self` and `other`. -/
theorem moveAssign_result_untouched (sz align : Nat)
    (s : Nat → uninitialized_buffer) (self other n : Nat)
    (h1 : n ≠ self) (h2 : n ≠ other) :
    (moveAssign sz align s self other).1 n = s n := by
  simp [moveAssign, updateStore, h1, h2]

/-- Move assignment issues exactly the deallocation of `self`'s prior
buffer, when there is one, and no other resource call. -/
theorem moveAssign_events (sz align : Nat)
    (s : Nat → uninitialized_buffer) (self other : Nat) :
    (moveAssign sz align s self other).2 =
      if (s self).__buf_ ≠ 0 then
        [Event.dealloc (s self).__mr_ (s self).__buf_
          (__get_allocation_size sz align (s self).__count_)]
      else [] := rfl

/-- C3: construction issues an `allocate` call iff `count > 0`; with
`count == 0` no resource call is made and `size()` is `0`; with `count > 0`
exactly one `allocate` call is made, with argument
`__get_allocation_size(count)`, and `size()` is `count` afterwards. -/
theorem construct_calls (sz align mr : Nat) (allocFn : Nat → Option Nat)
    (count : Nat) :
    (count = 0 →
      construct sz align mr allocFn count =
        (some { __mr_ := mr, __count_ := 0, __buf_ := 0 }, []) ∧
      ∀ b, (construct sz align mr allocFn count).1 = some b → size b = 0) ∧
    (count ≠ 0 →
      (construct sz align mr allocFn count).2 =
        [Event.alloc mr (__get_allocation_size sz align count)] ∧
      ∀ b, (construct sz align mr allocFn count).1 = some b →
        size b = count) := by
  constructor
  · intro hc
    subst hc
    refine ⟨rfl, ?_⟩
    intro b hb
    simp [construct] at hb
    rw [← hb]
    rfl
  · intro hc
    unfold construct
    rw [if_neg hc]
    cases hfn : allocFn (__get_allocation_size sz align count) with
    | some p =>
      refine ⟨rfl, ?_⟩
      intro b hb
      simp at hb
      rw [← hb]
      rfl
    | none =>
      refine ⟨rfl, ?_⟩
      intro b hb
      simp at hb

/-- C4: every operation preserves the invariant `count == 0 ⇔ buf == null`,
provided a successful `allocate` returns a non-null pointer; so every
reachable buffer is `Empty` (count 0, null) or `Holding` (count > 0,
non-null). -/
theorem invariant_preserved (sz align mr : Nat) (allocFn : Nat → Option Nat)
    (hnn : ∀ n p, allocFn n = some p → p ≠ 0) (count : Nat)
    (b x y : uninitialized_buffer) (hb : inv b) (hx : inv x) (hy : inv y)
    (s : Nat → uninitialized_buffer) (i j : Nat) (hs : ∀ n, inv (s n)) :
    (∀ c, (construct sz align mr allocFn count).1 = some c → inv c) ∧
      inv (moveConstruct b).1 ∧ inv (moveConstruct b).2.1 ∧
      inv (swap x y).1 ∧ inv (swap x y).2.1 ∧
      (∀ n, inv ((moveAssign sz align s i j).1 n)) := by
  refine ⟨?_, hb, by simp [inv, moveConstruct], hy, hx, ?_⟩
  · intro c hc
    unfold construct at hc
    by_cases h0 : count = 0
    · rw [if_pos h0] at hc
      simp at hc
      rw [← hc]
      simp [inv, h0]
    · rw [if_neg h0] at hc
      cases hfn : allocFn (__get_allocation_size sz align count) with
      | some p =>
        rw [hfn] at hc
        simp at hc
        rw [← hc]
        simpa [inv, h0] using hnn _ p hfn
      | none =>
        rw [hfn] at hc
        simp at hc
  · intro n
    by_cases hnj : n = j
    · subst hnj
      rw [moveAssign_result_other]
      simp [inv]
    · by_cases hni : n = i
      · subst hni
        by_cases hij : n = j
        · exact absurd hij hnj
        · rw [moveAssign_result_self sz align s n j hij]
          have := hs j
          simpa [inv] using this
      · rw [moveAssign_result_untouched sz align s i j n hni hnj]
        exact hs n

/-- Witness for C4 at a concrete resource that returns pointer `1` and
concrete buffers satisfying the invariant. -/
theorem invariant_preserved_witness :
    (∀ c, (construct 4 4 0 (fun _ => some 1) 2).1 = some c → inv c) ∧
      inv (moveConstruct { __mr_ := 0, __count_ := 3, __buf_ := 8 }).1 ∧
      inv (moveConstruct { __mr_ := 0, __count_ := 3, __buf_ := 8 }).2.1 ∧
      inv (swap { __mr_ := 0, __count_ := 0, __buf_ := 0 }
        { __mr_ := 1, __count_ := 5, __buf_ := 16 }).1 ∧
      inv (swap { __mr_ := 0, __count_ := 0, __buf_ := 0 }
        { __mr_ := 1, __count_ := 5, __buf_ := 16 }).2.1 ∧
      (∀ n, inv ((moveAssign 4 4
        (fun _ => { __mr_ := 0, __count_ := 2, __buf_ := 32 }) 0 1).1 n)) :=
  invariant_preserved 4 4 0 (fun _ => some 1)
    (fun n p h => by
      simp at h
      omega) 2
    { __mr_ := 0, __count_ := 3, __buf_ := 8 }
    { __mr_ := 0, __count_ := 0, __buf_ := 0 }
    { __mr_ := 1, __count_ := 5, __buf_ := 16 }
    (by simp [inv]) (by simp [inv]) (by simp [inv])
    (fun _ => { __mr_ := 0, __count_ := 2, __buf_ := 32 }) 0 1
    (fun n => by simp [inv])

/-- C5: move construction from a `Holding` buffer takes its member triple
verbatim, empties the source, issues no resource call, and destroying the
moved-from buffer afterwards issues no `deallocate` call. -/
theorem moveConstruct_spec (sz align : Nat) (b : uninitialized_buffer)
    (_hholding : b.__count_ ≠ 0 ∧ b.__buf_ ≠ 0) :
    (moveConstruct b).1 = b ∧
      size (moveConstruct b).1 = size b ∧
      (moveConstruct b).2.1 =
        { __mr_ := b.__mr_, __count_ := 0, __buf_ := 0 } ∧
      size (moveConstruct b).2.1 = 0 ∧
      (moveConstruct b).2.2 = [] ∧
      destruct sz align (moveConstruct b).2.1 = [] :=
  ⟨rfl, rfl, rfl, rfl, rfl, rfl⟩

/-- Witness for C5 at a concrete `Holding` buffer. -/
theorem moveConstruct_spec_witness :
    (({ __mr_ := 0, __count_ := 5, __buf_ := 64 } :
        uninitialized_buffer).__count_ ≠ 0 ∧
      ({ __mr_ := 0, __count_ := 5, __buf_ := 64 } :
        uninitialized_buffer).__buf_ ≠ 0) ∧
      ((moveConstruct { __mr_ := 0, __count_ := 5, __buf_ := 64 }).1 =
          { __mr_ := 0, __count_ := 5, __buf_ := 64 } ∧
        size (moveConstruct { __mr_ := 0, __count_ := 5, __buf_ := 64 }).1 =
          size { __mr_ := 0, __count_ := 5, __buf_ := 64 } ∧
        (moveConstruct { __mr_ := 0, __count_ := 5, __buf_ := 64 }).2.1 =
          { __mr_ := 0, __count_ := 0, __buf_ := 0 } ∧
        size (moveConstruct { __mr_ := 0, __count_ := 5, __buf_ := 64 }).2.1 = 0 ∧
        (moveConstruct { __mr_ := 0, __count_ := 5, __buf_ := 64 }).2.2 = [] ∧
        destruct 4 4 (moveConstruct { __mr_ := 0, __count_ := 5, __buf_ := 64 }).2.1 = []) :=
  ⟨⟨by decide, by decide⟩,
    moveConstruct_spec 4 4 { __mr_ := 0, __count_ := 5, __buf_ := 64 }
      ⟨by decide, by decide⟩⟩

/-- C7: `swap` exchanges the full member triples, leaves the event list
empty, and exchanges the observed sizes. -/
theorem swap_spec (x y : uninitialized_buffer) :
    swap x y = (y, x, []) ∧
      size (swap x y).1 = size y ∧ size (swap x y).2.1 = size x ∧
      resource (swap x y).1 = resource y ∧ resource (swap x y).2.1 = resource x ∧
      ((swap x y).1).__buf_ = y.__buf_ ∧ ((swap x y).2.1).__buf_ = x.__buf_ :=
  ⟨rfl, rfl, rfl, rfl, rfl, rfl, rfl⟩

/-- C8: a failing `allocate` during construction yields no buffer object;
the only resource call issued is the failed `allocate`, and in particular
no `deallocate` is ever issued for the attempt. -/
theorem construct_alloc_failure (sz align mr : Nat)
    (allocFn : Nat → Option Nat) (count : Nat) (hc : count ≠ 0)
    (hfail : allocFn (__get_allocation_size sz align count) = none) :
    (construct sz align mr allocFn count).1 = none ∧
      (construct sz align mr allocFn count).2 =
        [Event.alloc mr (__get_allocation_size sz align count)] ∧
      ∀ e ∈ (construct sz align mr allocFn count).2, isDealloc e = false := by
  unfold construct
  rw [if_neg hc, hfail]
  refine ⟨rfl, rfl, ?_⟩
  intro e he
  simp at he
  rw [he]
  rfl

/-- Witness for C8 with a resource whose `allocate` always throws. -/
theorem construct_alloc_failure_witness :
    ((3 : Nat) ≠ 0 ∧
      (fun _ => (none : Option Nat)) (__get_allocation_size 4 4 3) = none) ∧
      ((construct 4 4 0 (fun _ => none) 3).1 = none ∧
        (construct 4 4 0 (fun _ => none) 3).2 =
          [Event.alloc 0 (__get_allocation_size 4 4 3)] ∧
        ∀ e ∈ (construct 4 4 0 (fun _ => none) 3).2, isDealloc e = false) :=
  ⟨⟨by decide, rfl⟩,
    construct_alloc_failure 4 4 0 (fun _ => none) 3 (by decide) rfl⟩

/-- C6: for two distinct `Holding` buffers built by the constructor
(object 0 is `a`, object 1 is `b`), move-assigning `a` into `b` issues
exactly one `deallocate` — of `b`'s prior pointer with size argument
`__get_allocation_size(b's old count)` — while `b` adopts `a`'s triple and
`a` becomes `Empty`; over construction of both, the assignment and
destruction of both, the `deallocate` calls equal the `allocate` calls
in number (two each). -/
theorem moveAssign_scenario (sz align mr : Nat) (allocFn : Nat → Option Nat)
    (ca cb pa pb : Nat) (hca : ca ≠ 0) (hcb : cb ≠ 0)
    (hpa : allocFn (__get_allocation_size sz align ca) = some pa)
    (hpa0 : pa ≠ 0)
    (hpb : allocFn (__get_allocation_size sz align cb) = some pb)
    (hpb0 : pb ≠ 0) :
    construct sz align mr allocFn ca =
      (some { __mr_ := mr, __count_ := ca, __buf_ := pa },
        [Event.alloc mr (__get_allocation_size sz align ca)]) ∧
      construct sz align mr allocFn cb =
        (some { __mr_ := mr, __count_ := cb, __buf_ := pb },
          [Event.alloc mr (__get_allocation_size sz align cb)]) ∧
      (moveAssign sz align (fun n =>
        if n = 0 then { __mr_ := mr, __count_ := ca, __buf_ := pa }
        else { __mr_ := mr, __count_ := cb, __buf_ := pb }) 1 0).2 =
        [Event.dealloc mr pb (__get_allocation_size sz align cb)] ∧
      (moveAssign sz align (fun n =>
        if n = 0 then { __mr_ := mr, __count_ := ca, __buf_ := pa }
        else { __mr_ := mr, __count_ := cb, __buf_ := pb }) 1 0).1 1 =
        { __mr_ := mr, __count_ := ca, __buf_ := pa } ∧
      (moveAssign sz align (fun n =>
        if n = 0 then { __mr_ := mr, __count_ := ca, __buf_ := pa }
        else { __mr_ := mr, __count_ := cb, __buf_ := pb }) 1 0).1 0 =
        { __mr_ := mr, __count_ := 0, __buf_ := 0 } ∧
      List.countP isDealloc
        ((construct sz align mr allocFn ca).2 ++
          (construct sz align mr allocFn cb).2 ++
          (moveAssign sz align (fun n =>
            if n = 0 then { __mr_ := mr, __count_ := ca, __buf_ := pa }
            else { __mr_ := mr, __count_ := cb, __buf_ := pb }) 1 0).2 ++
          destruct sz align ((moveAssign sz align (fun n =>
            if n = 0 then { __mr_ := mr, __count_ := ca, __buf_ := pa }
            else { __mr_ := mr, __count_ := cb, __buf_ := pb }) 1 0).1 0) ++
          destruct sz align ((moveAssign sz align (fun n =>
            if n = 0 then { __mr_ := mr, __count_ := ca, __buf_ := pa }
            else { __mr_ := mr, __count_ := cb, __buf_ := pb }) 1 0).1 1)) =
        List.countP isAlloc
          ((construct sz align mr allocFn ca).2 ++
            (construct sz align mr allocFn cb).2 ++
            (moveAssign sz align (fun n =>
              if n = 0 then { __mr_ := mr, __count_ := ca, __buf_ := pa }
              else { __mr_ := mr, __count_ := cb, __buf_ := pb }) 1 0).2 ++
            destruct sz align ((moveAssign sz align (fun n =>
              if n = 0 then { __mr_ := mr, __count_ := ca, __buf_ := pa }
              else { __mr_ := mr, __count_ := cb, __buf_ := pb }) 1 0).1 0) ++
            destruct sz align ((moveAssign sz align (fun n =>
              if n = 0 then { __mr_ := mr, __count_ := ca, __buf_ := pa }
              else { __mr_ := mr, __count_ := cb, __buf_ := pb }) 1 0).1 1)) ∧
      List.countP isAlloc
        ((construct sz align mr allocFn ca).2 ++
          (construct sz align mr allocFn cb).2 ++
          (moveAssign sz align (fun n =>
            if n = 0 then { __mr_ := mr, __count_ := ca, __buf_ := pa }
            else { __mr_ := mr, __count_ := cb, __buf_ := pb }) 1 0).2 ++
          destruct sz align ((moveAssign sz align (fun n =>
            if n = 0 then { __mr_ := mr, __count_ := ca, __buf_ := pa }
            else { __mr_ := mr, __count_ := cb, __buf_ := pb }) 1 0).1 0) ++
          destruct sz align ((moveAssign sz align (fun n =>
            if n = 0 then { __mr_ := mr, __count_ := ca, __buf_ := pa }
            else { __mr_ := mr, __count_ := cb, __buf_ := pb }) 1 0).1 1)) = 2 := by
  set S : Nat → uninitialized_buffer := fun n =>
    if n = 0 then { __mr_ := mr, __count_ := ca, __buf_ := pa }
    else { __mr_ := mr, __count_ := cb, __buf_ := pb } with hS
  have hS0 : S 0 = { __mr_ := mr, __count_ := ca, __buf_ := pa } := rfl
  have hS1 : S 1 = { __mr_ := mr, __count_ := cb, __buf_ := pb } := rfl
  have hcon_a : construct sz align mr allocFn ca =
      (some { __mr_ := mr, __count_ := ca, __buf_ := pa },
        [Event.alloc mr (__get_allocation_size sz align ca)]) := by
    unfold construct
    rw [if_neg hca, hpa]
  have hcon_b : construct sz align mr allocFn cb =
      (some { __mr_ := mr, __count_ := cb, __buf_ := pb },
        [Event.alloc mr (__get_allocation_size sz align cb)]) := by
    unfold construct
    rw [if_neg hcb, hpb]
  have hev : (moveAssign sz align S 1 0).2 =
      [Event.dealloc mr pb (__get_allocation_size sz align cb)] := by
    rw [moveAssign_events, hS1]
    simp [hpb0]
  have hb' : (moveAssign sz align S 1 0).1 1 =
      { __mr_ := mr, __count_ := ca, __buf_ := pa } := by
    rw [moveAssign_result_self sz align S 1 0 (by decide), hS0]
  have ha' : (moveAssign sz align S 1 0).1 0 =
      { __mr_ := mr, __count_ := 0, __buf_ := 0 } := by
    rw [moveAssign_result_other sz align S 1 0, hS0]
  have hd0 : destruct sz align ((moveAssign sz align S 1 0).1 0) = [] := by
    rw [ha']
    simp [destruct]
  have hd1 : destruct sz align ((moveAssign sz align S 1 0).1 1) =
      [Event.dealloc mr pa (__get_allocation_size sz align ca)] := by
    rw [hb']
    simp [destruct, hpa0]
  refine ⟨hcon_a, hcon_b, hev, hb', ha', ?_, ?_⟩ <;>
    simp [hcon_a, hcon_b, hev, hd0, hd1, List.countP_cons, isAlloc, isDealloc]

/-- Witness for C6: resource returning pointer `1000 + bytes`, counts `3`
and `7`, element size and alignment `4` (allocation sizes `12` and `28`,
pointers `1012` and `1028`). -/
theorem moveAssign_scenario_witness :
    ((3 : Nat) ≠ 0 ∧ (7 : Nat) ≠ 0 ∧
      (fun n => some (1000 + n)) (__get_allocation_size 4 4 3) = some 1012 ∧
      (1012 : Nat) ≠ 0 ∧
      (fun n => some (1000 + n)) (__get_allocation_size 4 4 7) = some 1028 ∧
      (1028 : Nat) ≠ 0) ∧
      (construct 4 4 0 (fun n => some (1000 + n)) 3 =
        (some ⟨0, 3, 1012⟩, [Event.alloc 0 12]) ∧
        construct 4 4 0 (fun n => some (1000 + n)) 7 =
          (some ⟨0, 7, 1028⟩, [Event.alloc 0 28]) ∧
        (moveAssign 4 4
          (fun n => if n = 0 then ⟨0, 3, 1012⟩ else ⟨0, 7, 1028⟩) 1 0).2 =
          [Event.dealloc 0 1028 28] ∧
        (moveAssign 4 4
          (fun n => if n = 0 then ⟨0, 3, 1012⟩ else ⟨0, 7, 1028⟩) 1 0).1 1 =
          ⟨0, 3, 1012⟩ ∧
        (moveAssign 4 4
          (fun n => if n = 0 then ⟨0, 3, 1012⟩ else ⟨0, 7, 1028⟩) 1 0).1 0 =
          ⟨0, 0, 0⟩ ∧
        List.countP isDealloc
          ((construct 4 4 0 (fun n => some (1000 + n)) 3).2 ++
            (construct 4 4 0 (fun n => some (1000 + n)) 7).2 ++
            (moveAssign 4 4
              (fun n => if n = 0 then ⟨0, 3, 1012⟩ else ⟨0, 7, 1028⟩) 1 0).2 ++
            destruct 4 4 ((moveAssign 4 4
              (fun n => if n = 0 then ⟨0, 3, 1012⟩ else ⟨0, 7, 1028⟩) 1 0).1 0) ++
            destruct 4 4 ((moveAssign 4 4
              (fun n => if n = 0 then ⟨0, 3, 1012⟩ else ⟨0, 7, 1028⟩) 1 0).1 1)) =
          List.countP isAlloc
            ((construct 4 4 0 (fun n => some (1000 + n)) 3).2 ++
              (construct 4 4 0 (fun n => some (1000 + n)) 7).2 ++
              (moveAssign 4 4
                (fun n => if n = 0 then ⟨0, 3, 1012⟩ else ⟨0, 7, 1028⟩) 1 0).2 ++
              destruct 4 4 ((moveAssign 4 4
                (fun n => if n = 0 then ⟨0, 3, 1012⟩ else ⟨0, 7, 1028⟩) 1 0).1 0) ++
              destruct 4 4 ((moveAssign 4 4
                (fun n => if n = 0 then ⟨0, 3, 1012⟩ else ⟨0, 7, 1028⟩) 1 0).1 1)) ∧
        List.countP isAlloc
          ((construct 4 4 0 (fun n => some (1000 + n)) 3).2 ++
            (construct 4 4 0 (fun n => some (1000 + n)) 7).2 ++
            (moveAssign 4 4
              (fun n => if n = 0 then ⟨0, 3, 1012⟩ else ⟨0, 7, 1028⟩) 1 0).2 ++
            destruct 4 4 ((moveAssign 4 4
              (fun n => if n = 0 then ⟨0, 3, 1012⟩ else ⟨0, 7, 1028⟩) 1 0).1 0) ++
            destruct 4 4 ((moveAssign 4 4
              (fun n => if n = 0 then ⟨0, 3, 1012⟩ else ⟨0, 7, 1028⟩) 1 0).1 1)) = 2) :=
  ⟨⟨by decide, by decide, rfl, by decide, rfl, by decide⟩,
    moveAssign_scenario 4 4 0 (fun n => some (1000 + n)) 3 7 1012 1028
      (by decide) (by decide) rfl (by decide) rfl (by decide)⟩

/-- C9: self-move-assignment `b = std::move(b)` deallocates `b`'s buffer
exactly once when `b` is `Holding` (with the correct pointer and size
arguments) and not at all when `b` is `Empty`; it leaves `b` empty with its
resource intact, so the subsequent destructor issues no further
`deallocate`. -/
theorem moveAssign_self_spec (sz align : Nat)
    (s : Nat → uninitialized_buffer) (i : Nat) :
    (moveAssign sz align s i i).1 i =
      { __mr_ := (s i).__mr_, __count_ := 0, __buf_ := 0 } ∧
      (moveAssign sz align s i i).2 =
        (if (s i).__buf_ ≠ 0 then
          [Event.dealloc (s i).__mr_ (s i).__buf_
            (__get_allocation_size sz align (s i).__count_)]
        else []) ∧
      List.countP isDealloc (moveAssign sz align s i i).2 ≤ 1 ∧
      ((s i).__buf_ ≠ 0 →
        List.countP isDealloc (moveAssign sz align s i i).2 = 1) ∧
      ((s i).__buf_ = 0 → (moveAssign sz align s i i).2 = []) ∧
      destruct sz align ((moveAssign sz align s i i).1 i) = [] := by
  refine ⟨moveAssign_result_other sz align s i i, rfl, ?_, ?_, ?_, ?_⟩
  · rw [moveAssign_events]
    by_cases h : (s i).__buf_ = 0
    · simp [h, List.countP_nil]
    · simp [h, List.countP_cons, List.countP_nil, isDealloc]
  · intro h
    rw [moveAssign_events, if_pos h]
    simp [List.countP_cons, List.countP_nil, isDealloc]
  · intro h
    rw [moveAssign_events, if_neg (by simp [h])]
  · rw [moveAssign_result_other sz align s i i]
    rfl

/-- C10: both move operations leave the moved-from object's `__mr_`
unchanged and reset only `__count_` and `__buf_`, so the moved-from buffer
is an `Empty` buffer still holding its original resource reference. -/
theorem move_preserves_resource (sz align : Nat) (b : uninitialized_buffer)
    (s : Nat → uninitialized_buffer) (self other : Nat) :
    resource (moveConstruct b).2.1 = resource b ∧
      size (moveConstruct b).2.1 = 0 ∧
      ((moveConstruct b).2.1).__buf_ = 0 ∧
      resource ((moveAssign sz align s self other).1 other) =
        resource (s other) ∧
      size ((moveAssign sz align s self other).1 other) = 0 ∧
      ((moveAssign sz align s self other).1 other).__buf_ = 0 := by
  refine ⟨rfl, rfl, rfl, ?_, ?_, ?_⟩ <;>
    rw [moveAssign_result_other sz align s self other] <;> rfl

end UninitializedBuffer
